import Mathlib

/-!
Verification of `generate_word.py` (repository MIKUSCAT/YUUKA).

The script is a straight-line sequence of library calls:
it builds a 100×100 RGB icon with two drawn lines, saves it to
`test_icon.png`, builds a Word document model by seven append calls
(plus one run appended to an existing paragraph), serializes the document
to `Test_Document.docx`, and prints a success line.

We embed the script as a fixed trace of events (`script`, one event per
library call in source order) together with a small-step interpreter over
an explicit state: a filesystem (association list from paths to file
contents), the in-memory PIL image, the document block list, and the
collected standard output.  The external libraries (python-docx, PIL)
are treated, as the script does, as black boxes: each call is recorded
with its exact literal arguments, and the interpreter realizes the
documented effect of the call on the state.
-/

/-- An RGB color triple, as passed to PIL (`color=(r,g,b)` / `fill=(r,g,b)`). -/
abbrev RGB := Nat × Nat × Nat

/-- One drawing operation on the icon.  The script only ever calls
`d.line((x0, y0, x1, y1), fill=..., width=...)`, so a straight line
segment is the only constructor. -/
inductive DrawOp where
  | line (x0 y0 x1 y1 : Int) (fill : RGB) (lineWidth : Nat)
deriving DecidableEq, Repr

/-- The in-memory raster image created by `Image.new('RGB', (w, h), color)`
together with the drawing operations applied to it via `ImageDraw`. -/
structure IconImg where
  w : Nat
  h : Nat
  background : RGB
  ops : List DrawOp
deriving DecidableEq, Repr

/-- A text run inside a paragraph (python-docx `Run`): its text and
whether its bold flag is set. -/
structure Run where
  text : String
  bold : Bool
deriving DecidableEq, Repr

/-- One top-level content block of the document body.
`heading` comes from `doc.add_heading(text, level)`;
`paragraph` from `doc.add_paragraph(text, style)` (style `none` when the
call passes no style argument); `picture` from
`doc.add_picture(path, width)`, recording the embed path, the display
width in EMU, and the image data read from the filesystem at embed time. -/
inductive Block where
  | heading (text : String) (level : Nat)
  | paragraph (runs : List Run) (style : Option String)
  | picture (path : String) (widthEmu : Nat) (data : Option IconImg)
deriving DecidableEq, Repr

/-- Contents of a file written by the script: either a saved icon image
or a serialized document. -/
inductive FileData where
  | image (img : IconImg)
  | docx (blocks : List Block)
deriving DecidableEq, Repr

/-- One event of the script's linear trace: each constructor corresponds
to one library call (or the final `print`) in `generate_word.py`.
`addRun` models `p.add_run(text).bold = b` where `p` is the paragraph
bound by the immediately preceding `add_paragraph` call — at that point
the most recently appended block. -/
inductive Event where
  | imgNew (w h : Nat) (color : RGB)
  | drawLine (x0 y0 x1 y1 : Int) (fill : RGB) (lineWidth : Nat)
  | imgSave (path : String)
  | docNew
  | addHeading (text : String) (level : Nat)
  | addParagraph (text : String) (style : Option String)
  | addRun (text : String) (bold : Bool)
  | addPicture (path : String) (widthEmu : Nat)
  | docSave (path : String)
  | printLine (msg : String)
deriving DecidableEq, Repr

/-- `docx.shared.Inches`: one inch is 914400 EMU, so `Inches(n)` is
`n * 914400` EMU. -/
def InchesEmu (n : Nat) : Nat := n * 914400

/-- The icon output path (`icon_path = 'test_icon.png'`). -/
def icon_path : String := "test_icon.png"

/-- The document output path (`file_name = 'Test_Document.docx'`). -/
def file_name : String := "Test_Document.docx"

/-- The success line: the f-string `f'Successfully generated {file_name}'`
interpolates the output filename. -/
def successMsg : String := "Successfully generated " ++ file_name

/-- The trace of `generate_word.py`, one event per call, in source order. -/
def script : List Event :=
  [ .imgNew 100 100 (73, 109, 137),
    .drawLine 20 50 80 50 (255, 255, 0) 5,
    .drawLine 50 20 50 80 (255, 255, 0) 5,
    .imgSave icon_path,
    .docNew,
    .addHeading "YUUKA 测试文档" 0,
    .addParagraph "老师，这是为您生成的测试文档。" none,
    .addRun " 这是一个加粗的测试文本。" true,
    .addHeading "功能演示" 1,
    .addParagraph "下面展示了如何插入图标：" (some "List Bullet"),
    .addPicture icon_path (InchesEmu 1),
    .addParagraph "文档生成概率：100%" (some "Normal"),
    .addParagraph "验算结果：一切正常。" (some "Normal"),
    .docSave file_name,
    .printLine successMsg ]

/-- Interpreter state: the filesystem (an association list, most recent
write first), the current in-memory image (if any), the document block
list (if a document has been created), and the collected stdout lines. -/
structure PState where
  fs : List (String × FileData)
  img : Option IconImg
  blocks : List Block
  out : List String
deriving Repr

/-- Append a run to the last block when it is a paragraph (the effect of
`p.add_run` given that `p` is the most recently appended paragraph). -/
def appendRunLast (r : Run) : List Block → List Block
  | [] => []
  | [Block.paragraph rs st] => [Block.paragraph (rs ++ [r]) st]
  | [b] => [b]
  | b :: rest => b :: appendRunLast r rest

/-- The effect of one event on the interpreter state.  `add_paragraph`
with text creates a paragraph holding one non-bold run with that text;
`add_picture` reads the file at its path from the filesystem at the
moment it runs; `img.save` / `doc.save` write the filesystem. -/
def step (s : PState) : Event → PState
  | .imgNew w h c => { s with img := some ⟨w, h, c, []⟩ }
  | .drawLine x0 y0 x1 y1 f lw =>
      { s with img := s.img.map fun i =>
          { i with ops := i.ops ++ [.line x0 y0 x1 y1 f lw] } }
  | .imgSave p =>
      match s.img with
      | some i => { s with fs := (p, .image i) :: s.fs }
      | none => s
  | .docNew => { s with blocks := [] }
  | .addHeading t l => { s with blocks := s.blocks ++ [.heading t l] }
  | .addParagraph t st =>
      { s with blocks := s.blocks ++ [.paragraph [⟨t, false⟩] st] }
  | .addRun t b => { s with blocks := appendRunLast ⟨t, b⟩ s.blocks }
  | .addPicture p wEmu =>
      let data : Option IconImg :=
        match List.lookup p s.fs with
        | some (.image i) => some i
        | _ => none
      { s with blocks := s.blocks ++ [.picture p wEmu data] }
  | .docSave p => { s with fs := (p, .docx s.blocks) :: s.fs }
  | .printLine m => { s with out := s.out ++ [m] }

/-- Run a list of events from a state. -/
def runEvents (s : PState) (evs : List Event) : PState := evs.foldl step s

/-- The initial state over an arbitrary pre-existing filesystem: no
in-memory image, no document, nothing printed. -/
def initState (fs₀ : List (String × FileData)) : PState := ⟨fs₀, none, [], []⟩

/-- The icon image as it stands when saved: 100×100, background
(73,109,137), two yellow width-5 lines. -/
def iconFinal : IconImg :=
  ⟨100, 100, (73, 109, 137),
   [.line 20 50 80 50 (255, 255, 0) 5, .line 50 20 50 80 (255, 255, 0) 5]⟩

/-- The document body as assembled by the script. -/
def expectedBlocks : List Block :=
  [ .heading "YUUKA 测试文档" 0,
    .paragraph [⟨"老师，这是为您生成的测试文档。", false⟩,
                ⟨" 这是一个加粗的测试文本。", true⟩] none,
    .heading "功能演示" 1,
    .paragraph [⟨"下面展示了如何插入图标：", false⟩] (some "List Bullet"),
    .picture icon_path (InchesEmu 1) (some iconFinal),
    .paragraph [⟨"文档生成概率：100%", false⟩] (some "Normal"),
    .paragraph [⟨"验算结果：一切正常。", false⟩] (some "Normal") ]

/-- The image stored at `icon_path` after the full run (with a dummy
default that the run never produces, since the save does happen). -/
def theIcon : IconImg :=
  match List.lookup icon_path (runEvents (initState []) script).fs with
  | some (.image i) => i
  | _ => ⟨0, 0, (0, 0, 0), []⟩

/-- `(px, py)` lies on the closed segment from `(x0, y0)` to `(x1, y1)`:
collinear with the endpoints and within their bounding box. -/
def onSegB (x0 y0 x1 y1 px py : Int) : Bool :=
  decide ((x1 - x0) * (py - y0) - (y1 - y0) * (px - x0) = 0) &&
  decide (min x0 x1 ≤ px) && decide (px ≤ max x0 x1) &&
  decide (min y0 y1 ≤ py) && decide (py ≤ max y0 y1)

/-- The fill color of a drawing operation. -/
def DrawOp.fillOf : DrawOp → RGB
  | .line _ _ _ _ f _ => f

/-- The stroke width of a drawing operation. -/
def DrawOp.strokeOf : DrawOp → Nat
  | .line _ _ _ _ _ w => w

/-- The direction vector of a line operation. -/
def DrawOp.dir : DrawOp → Int × Int
  | .line x0 y0 x1 y1 _ _ => (x1 - x0, y1 - y0)

/-- A line operation is horizontal when its endpoints share a y coordinate. -/
def DrawOp.isHorizontal : DrawOp → Bool
  | .line _ y0 _ y1 _ _ => y0 == y1

/-- A line operation is vertical when its endpoints share an x coordinate. -/
def DrawOp.isVertical : DrawOp → Bool
  | .line x0 _ x1 _ _ _ => x0 == x1

/-- Whether `(px, py)` lies on the segment of a line operation. -/
def DrawOp.hits (op : DrawOp) (px py : Int) : Bool :=
  match op with
  | .line x0 y0 x1 y1 _ _ => onSegB x0 y0 x1 y1 px py

/-- Events that append a top-level block to the document. -/
def isDocAppend : Event → Bool
  | .addHeading _ _ => true
  | .addParagraph _ _ => true
  | .addPicture _ _ => true
  | _ => false

/-- Events that serialize the document. -/
def isDocSave : Event → Bool
  | .docSave _ => true
  | _ => false

/-- Events that create the (empty) document. -/
def isDocNew : Event → Bool
  | .docNew => true
  | _ => false

/-- Events that append a run to an existing paragraph. -/
def isAddRun : Event → Bool
  | .addRun _ _ => true
  | _ => false

/-- Events that save the in-memory image to disk. -/
def isImgSave : Event → Bool
  | .imgSave _ => true
  | _ => false

/-- Events that embed a picture file into the document. -/
def isAddPicture : Event → Bool
  | .addPicture _ _ => true
  | _ => false

/-- The file paths written by a trace, in write order
(`img.save` and `doc.save` are the only writing calls). -/
def writesOf (evs : List Event) : List String :=
  evs.filterMap fun e =>
    match e with
    | .imgSave p => some p
    | .docSave p => some p
    | _ => none

/-- The text printed by an event, if it is a print. -/
def printedText : Event → Option String
  | .printLine m => some m
  | _ => none

/-- Fail-fast interpreter for error propagation.  `fails i` says whether
the library call at absolute position `i` of the trace raises.  The
script installs no handler, so the first raising call aborts the run:
the first component is `true` exactly when the process terminates
normally (exit status 0), and the second is the stdout actually
produced.  `print` of a literal string is not a fallible library call. -/
def runF (fails : Nat → Bool) : Nat → List Event → Bool × List String
  | _, [] => (true, [])
  | i, e :: rest =>
      match printedText e with
      | some m =>
          let r := runF fails (i + 1) rest
          (r.1, m :: r.2)
      | none => if fails i then (false, []) else runF fails (i + 1) rest

/-- `allOkFrom fails i n`: none of the `n` calls at positions
`i, i+1, …, i+n-1` fails. -/
def allOkFrom (fails : Nat → Bool) : Nat → Nat → Bool
  | _, 0 => true
  | i, n + 1 => !(fails i) && allOkFrom fails (i + 1) n

/-- The trace up to (excluding) the final `print`. -/
def scriptFront : List Event := script.dropLast

/-- The explicit style-name argument of an event, when one is passed
(`doc.add_paragraph(..., style='...')`); the first `add_paragraph` call
passes no style, and headings/pictures pass none either. -/
def styleArg : Event → Option String
  | .addParagraph _ (some st) => some st
  | _ => none

/-- Whether document assembly would abort at this event because its
explicit style name is not among the document's known styles (python-docx
raises a `KeyError` on an unknown style name). -/
def styleLookupFails (styles : List String) (e : Event) : Bool :=
  match styleArg e with
  | some st => !(styles.contains st)
  | none => false

/-- The paragraph styles built into the default template of the document
library (python-docx's `default.docx`), available in every freshly
created document.  The library is an external dependency treated as a
black box; this list models its documented default style set. -/
def defaultDocStyles : List String :=
  [ "Normal", "Body Text", "Body Text 2", "Body Text 3", "Caption",
    "Heading 1", "Heading 2", "Heading 3", "Heading 4", "Heading 5",
    "Heading 6", "Heading 7", "Heading 8", "Heading 9", "Intense Quote",
    "List", "List 2", "List 3", "List Bullet", "List Bullet 2",
    "List Bullet 3", "List Continue", "List Continue 2", "List Continue 3",
    "List Number", "List Number 2", "List Number 3", "List Paragraph",
    "Macro Text", "No Spacing", "Quote", "Subtitle", "TOC Heading",
    "Title" ]

/-- The texts carried by a block, in order: heading text, or the texts of
a paragraph's runs; a picture carries no text. -/
def blockTexts : Block → List String
  | .heading t _ => [t]
  | .paragraph rs _ => rs.map Run.text
  | .picture _ _ _ => []

/-- Master computation lemma: running the whole trace from any initial
filesystem yields exactly the two file writes (document on top of icon,
frame `fs₀` untouched), the final in-memory icon, the expected block
list, and the single success line. -/
theorem run_script_eq (fs₀ : List (String × FileData)) :
    runEvents (initState fs₀) script =
      ⟨(file_name, .docx expectedBlocks) :: (icon_path, .image iconFinal) :: fs₀,
       some iconFinal, expectedBlocks, [successMsg]⟩ := rfl

/-- Helper: running a print-free trace followed by a single print.  The
run succeeds exactly when none of the leading calls fails, and the line
is printed exactly in that case. -/
theorem runF_append_print (fails : Nat → Bool) (m : String) :
    ∀ (evs : List Event) (i : Nat), (∀ e ∈ evs, printedText e = none) →
      runF fails i (evs ++ [Event.printLine m]) =
        (allOkFrom fails i evs.length,
          if allOkFrom fails i evs.length then [m] else [])
  | [], i, _ => by simp [runF, allOkFrom, printedText]
  | e :: evs, i, h => by
      have he : printedText e = none := h e (List.mem_cons_self _ _)
      have ih := runF_append_print fails m evs (i + 1)
        (fun x hx => h x (List.mem_cons_of_mem _ hx))
      simp only [List.cons_append, runF, he, List.length_cons, allOkFrom]
      by_cases hf : fails i = true
      · simp [hf]
      · simp only [Bool.not_eq_true] at hf
        simp [hf, ih]

/-- C1: after the script runs to completion (from any pre-existing
filesystem), the document body holds exactly, in order: the title-level
heading; the greeting paragraph whose second run is the bold text with
its bold flag set; the level-1 heading; the 'List Bullet' paragraph; the
picture embedded from the previously saved icon file at a fixed width of
1.0 inch (914400 EMU); and two further plain paragraphs — nothing else. -/
theorem document_blocks_spec (fs₀ : List (String × FileData)) :
    (runEvents (initState fs₀) script).blocks =
      [ .heading "YUUKA 测试文档" 0,
        .paragraph [⟨"老师，这是为您生成的测试文档。", false⟩,
                    ⟨" 这是一个加粗的测试文本。", true⟩] none,
        .heading "功能演示" 1,
        .paragraph [⟨"下面展示了如何插入图标：", false⟩] (some "List Bullet"),
        .picture icon_path 914400 (some iconFinal),
        .paragraph [⟨"文档生成概率：100%", false⟩] (some "Normal"),
        .paragraph [⟨"验算结果：一切正常。", false⟩] (some "Normal") ] := rfl

/-- C2: the `img.save` event precedes the `add_picture` event in the
trace, and at the moment `add_picture` runs — whatever the initial
filesystem was — the icon file exists on disk at `icon_path`, holding
the drawn icon. -/
theorem icon_saved_before_embed :
    script.findIdx isImgSave < script.findIdx isAddPicture ∧
    ∀ fs₀ : List (String × FileData),
      List.lookup icon_path
          (runEvents (initState fs₀) (script.take (script.findIdx isAddPicture))).fs
        = some (.image iconFinal) :=
  ⟨by decide, fun _ => rfl⟩

/-- C3: the file saved at the icon path is a 100×100 image with a solid
background fill (73,109,137) and exactly two straight line segments, each
drawn in a color different from the background, and the two segments meet
at a common point inside the canvas. -/
theorem icon_file_contents :
    List.lookup icon_path (runEvents (initState []) script).fs
        = some (.image theIcon) ∧
    theIcon.w = 100 ∧ theIcon.h = 100 ∧
    theIcon.background = (73, 109, 137) ∧
    theIcon.ops.length = 2 ∧
    theIcon.ops.all (fun op => op.fillOf != theIcon.background) = true ∧
    ∃ px py : Int, theIcon.ops.all (fun op => op.hits px py) = true ∧
      0 ≤ px ∧ px < 100 ∧ 0 ≤ py ∧ py < 100 :=
  ⟨rfl, rfl, rfl, rfl, rfl, by decide, 50, 50, by decide⟩

/-- C4: the document is created empty (no blocks right after `Document()`,
event 4, before any append), receives exactly seven top-level appends and
is serialized exactly once; the single `add_run` event is not a document
append — after the run the body has seven blocks and the second block
(the greeting paragraph) holds two runs. -/
theorem document_append_counts :
    script.countP isDocAppend = 7 ∧
    script.countP isDocSave = 1 ∧
    script.countP isDocNew = 1 ∧
    (runEvents (initState []) (script.take 5)).blocks = [] ∧
    script.countP isAddRun = 1 ∧
    script.countP (fun e => isAddRun e && isDocAppend e) = 0 ∧
    (runEvents (initState []) script).blocks.length = 7 ∧
    (match (runEvents (initState []) script).blocks.getD 1 (.heading "" 0) with
      | .paragraph rs _ => rs.length
      | _ => 0) = 2 := by
  decide

/-- C5: a complete run writes exactly two files — first the icon image at
`icon_path`, then the document at `file_name` — and for any initial
filesystem the final filesystem is exactly those two new entries on top
of the untouched original (no other file created or modified). -/
theorem files_written_exactly :
    writesOf script = [icon_path, file_name] ∧
    ∀ fs₀ : List (String × FileData),
      (runEvents (initState fs₀) script).fs =
        (file_name, .docx expectedBlocks) :: (icon_path, .image iconFinal) :: fs₀ :=
  ⟨rfl, fun _ => rfl⟩

/-- C6: for every pattern of library-call failures, the run prints the
single success line (which interpolates the document filename) exactly
when all fourteen fallible calls — through the final `doc.save` — succeed
(first component `true`, normal exit); any failure aborts the run
unhandled (first component `false`, non-zero exit) with nothing printed. -/
theorem stdout_iff_save_succeeds (fails : Nat → Bool) :
    runF fails 0 script =
      (allOkFrom fails 0 14,
        if allOkFrom fails 0 14 then [successMsg] else []) := by
  have h : script = scriptFront ++ [Event.printLine successMsg] := rfl
  have hnp : ∀ e ∈ scriptFront, printedText e = none := by decide
  rw [h, runF_append_print fails successMsg scriptFront 0 hnp]
  rfl

/-- C7: the script reads no input, so the document content structure is
the same across any two runs: for any two initial filesystems the
resulting block lists (texts, styles, bold flags, order) are equal. -/
theorem document_content_deterministic
    (fs₁ fs₂ : List (String × FileData)) :
    (runEvents (initState fs₁) script).blocks =
      (runEvents (initState fs₂) script).blocks := rfl

/-- C8: the texts of the document blocks, flattened in order, are exactly
the fixed literals of the program (including the leading space of the
bold run), and the single printed line is exactly
`Successfully generated Test_Document.docx`. -/
theorem literal_texts_fixed :
    ((runEvents (initState []) script).blocks.map blockTexts).flatten =
      [ "YUUKA 测试文档",
        "老师，这是为您生成的测试文档。",
        " 这是一个加粗的测试文本。",
        "功能演示",
        "下面展示了如何插入图标：",
        "文档生成概率：100%",
        "验算结果：一切正常。" ] ∧
    (runEvents (initState []) script).out =
      ["Successfully generated Test_Document.docx"] :=
  ⟨rfl, rfl⟩

/-- C9: the two drawn lines are the horizontal segment (20,50)–(80,50)
and the vertical segment (50,20)–(50,80), both yellow (255,255,0) and of
width 5, with perpendicular direction vectors, and both pass through the
canvas center (50,50) — a symmetric plus sign. -/
theorem icon_lines_plus_sign :
    theIcon.ops = [.line 20 50 80 50 (255, 255, 0) 5,
                   .line 50 20 50 80 (255, 255, 0) 5] ∧
    (theIcon.ops.getD 0 (.line 0 0 0 0 (0, 0, 0) 0)).isHorizontal = true ∧
    (theIcon.ops.getD 1 (.line 0 0 0 0 (0, 0, 0) 0)).isVertical = true ∧
    theIcon.ops.all (fun op => op.fillOf == (255, 255, 0)) = true ∧
    theIcon.ops.all (fun op => op.strokeOf == 5) = true ∧
    ((theIcon.ops.getD 0 (.line 0 0 0 0 (0, 0, 0) 0)).dir.1 *
       (theIcon.ops.getD 1 (.line 0 0 0 0 (0, 0, 0) 0)).dir.1 +
     (theIcon.ops.getD 0 (.line 0 0 0 0 (0, 0, 0) 0)).dir.2 *
       (theIcon.ops.getD 1 (.line 0 0 0 0 (0, 0, 0) 0)).dir.2) = 0 ∧
    theIcon.ops.all (fun op => op.hits 50 50) = true ∧
    2 * 50 = theIcon.w ∧ 2 * 50 = theIcon.h := by
  decide

/-- C10: the only explicit style names the script passes are
'List Bullet' and one 'Normal' per closing paragraph; and whenever both
names are among the document's known styles — as they are in the default
template — no event of the trace trips the unknown-style-name abort. -/
theorem style_names_valid :
    script.filterMap styleArg = ["List Bullet", "Normal", "Normal"] ∧
    ∀ styles : List String, "List Bullet" ∈ styles → "Normal" ∈ styles →
      script.all (fun e => !(styleLookupFails styles e)) = true := by
  refine ⟨by decide, fun styles h1 h2 => ?_⟩
  simp [script, styleLookupFails, styleArg]
  exact ⟨h1, h2⟩

/-- Witness for C10: both style names are in the default template's
built-in style list, and the trace passes the style check against it. -/
theorem style_names_valid_witness :
    ("List Bullet" ∈ defaultDocStyles ∧ "Normal" ∈ defaultDocStyles) ∧
    script.all (fun e => !(styleLookupFails defaultDocStyles e)) = true :=
  ⟨⟨by decide, by decide⟩,
   style_names_valid.2 defaultDocStyles (by decide) (by decide)⟩
